import Mathlib

/-!
Verification of the link resolution and mutation engine of a URL-shortening
service.  The definitions below are a shallow embedding of the Python code in
src/app/services/link_service.py, src/app/cleanup.py and src/app/models.
Timestamps are modelled as natural numbers; the SQLAlchemy session is modelled
as a list of link records, with commits producing a new list; the Redis client
is modelled as an association list together with an availability flag, and a
call on an unavailable client raises (returns an error), exactly as the Python
code propagates a redis exception since it installs no handler.  Every service
call returns, besides its result, the committed store, the cache contents, the
list of cache operations it performed and the number of store commits it made.
The unique index that models.py declares (named short_code, over the column
is_active, installed by Base.metadata.create_all) is modelled at the one place
it can fire, the commit of the insert in create_link.
-/

set_option autoImplicit false

/-- Link record, mirroring the columns of the links table in
src/app/models/models.py. -/
structure Link where
  id : Nat
  short_code : String
  original_url : String
  custom_alias : Option String
  created_at : Nat
  last_used_at : Option Nat
  expires_at : Option Nat
  clicks : Nat
  is_active : Bool
  user_id : Option Nat
deriving Repr, DecidableEq

/-- The part of the users table the link service reads. -/
structure User where
  id : Nat
  is_admin : Bool
deriving Repr, DecidableEq

/-- Request body for link creation (schemas.LinkCreate). -/
structure LinkCreate where
  original_url : String
  custom_alias : Option String
  expires_at : Option Nat
deriving Repr, DecidableEq

/-- Request body for link update (schemas.LinkUpdate); every field optional. -/
structure LinkUpdate where
  original_url : Option String
  custom_alias : Option String
  expires_at : Option Nat
deriving Repr, DecidableEq

/-- The durable store: the list of link rows, in insertion order.  A query
with .first() returns the first row matching the filter. -/
abbrev DB := List Link

/-- A cache operation performed against the Redis backend. -/
inductive CacheOp where
  | get (key : String)
  | set (key value : String) (ttl : Nat)
  | del (key : String)
deriving Repr, DecidableEq

/-- The volatile cache: key-value entries plus an availability flag.  When
available is false every operation on the backend raises. -/
structure Cache where
  entries : List (String × String)
  available : Bool
deriving Repr, DecidableEq

def Cache.lookup (c : Cache) (k : String) : Option String :=
  (c.entries.find? (fun p => p.1 == k)).map (fun p => p.2)

def Cache.setEntry (c : Cache) (k v : String) : Cache :=
  { c with entries := (k, v) :: c.entries.filter (fun p => !(p.1 == k)) }

def Cache.delEntry (c : Cache) (k : String) : Cache :=
  { c with entries := c.entries.filter (fun p => !(p.1 == k)) }

/-- Errors a service call can surface: an HTTPException with status and
detail, a propagated exception from an unreachable cache backend, or a
propagated IntegrityError from a commit that violates the unique index the
schema of models.py installs. -/
inductive Err where
  | http (status : Nat) (detail : String)
  | cacheUnavailable
  | integrityError
deriving Repr, DecidableEq

/-- Result of a service call that touches both store and cache: the returned
value or raised error, the committed store, the cache contents, the cache
operations performed in order, and the number of store commits. -/
structure Outcome (α : Type) where
  result : Except Err α
  db : DB
  cache : Cache
  ops : List CacheOp
  commits : Nat
deriving Repr

/-- Result of a service call that never touches the cache. -/
structure StoreOutcome (α : Type) where
  result : Except Err α
  db : DB
  commits : Nat
deriving Repr

def SHORT_CODE_LENGTH : Nat := 6

def CUSTOM_ALIAS_MIN_LENGTH : Nat := 4

/-- Cache key for a short code, the Python f-string link:{short_code}. -/
def cacheKey (code : String) : String := "link:" ++ code

/-- db.query(Link).filter(Link.short_code == code, Link.is_active == True).first() -/
def findActiveByCode (db : DB) (code : String) : Option Link :=
  db.find? (fun l => l.short_code == code && l.is_active)

/-- db.query(Link).filter(Link.custom_alias == a, Link.is_active == True).first().
A row whose custom_alias is NULL never matches. -/
def findActiveByAlias (db : DB) (a : String) : Option Link :=
  db.find? (fun l => l.custom_alias == some a && l.is_active)

/-- db.query(Link).filter(Link.original_url == url, Link.user_id == uid,
Link.is_active == True).first() -/
def findActiveByUserAndUrl (db : DB) (uid : Nat) (url : String) : Option Link :=
  db.find? (fun l => l.original_url == url && l.user_id == some uid && l.is_active)

/-- Committing a mutation of one fetched row: the row with the same primary
key is replaced by the mutated object. -/
def saveLink (db : DB) (l : Link) : DB :=
  db.map (fun x => if x.id = l.id then l else x)

/-- The truthiness test of the Python condition
if db_link.expires_at and db_link.expires_at < now. -/
def isExpiredAt (l : Link) (now : Nat) : Bool :=
  match l.expires_at with
  | some e => decide (e < now)
  | none => false

/-- Truthiness of the cached value: redis.get returns None on a miss, and an
empty string is falsy in Python, so both count as a miss. -/
def cacheHit (cache : Cache) (key : String) : Bool :=
  match cache.lookup key with
  | some v => !(v == "")
  | none => false

/-- The cache-hit branch of get_link_by_short_code (link_service.py lines
109-133): re-query the store, lazily expire, update stats on a redirect, and
never write the cache. -/
def getHitBranch (db : DB) (cache : Cache) (key short_code : String)
    (is_redirect : Bool) (now : Nat) : Outcome (Option Link) :=
  match findActiveByCode db short_code with
  | some l =>
    if isExpiredAt l now then
      ⟨.ok none, saveLink db { l with is_active := false }, cache.delEntry key,
        [CacheOp.get key, CacheOp.del key], 1⟩
    else if is_redirect then
      ⟨.ok (some { l with clicks := l.clicks + 1, last_used_at := some now }),
        saveLink db { l with clicks := l.clicks + 1, last_used_at := some now },
        cache, [CacheOp.get key], 1⟩
    else
      ⟨.ok (some l), db, cache, [CacheOp.get key], 0⟩
  | none =>
    ⟨.ok none, db, cache.delEntry key, [CacheOp.get key, CacheOp.del key], 0⟩

/-- The cache-miss branch of get_link_by_short_code (link_service.py lines
135-156): query the store, lazily expire (without touching the cache), update
stats on a redirect, then populate the cache with the destination URL. -/
def getMissBranch (db : DB) (cache : Cache) (key short_code : String)
    (is_redirect : Bool) (now redis_ttl : Nat) : Outcome (Option Link) :=
  match findActiveByCode db short_code with
  | some l =>
    if isExpiredAt l now then
      ⟨.ok none, saveLink db { l with is_active := false }, cache,
        [CacheOp.get key], 1⟩
    else if is_redirect then
      ⟨.ok (some { l with clicks := l.clicks + 1, last_used_at := some now }),
        saveLink db { l with clicks := l.clicks + 1, last_used_at := some now },
        cache.setEntry key l.original_url,
        [CacheOp.get key, CacheOp.set key l.original_url redis_ttl], 1⟩
    else
      ⟨.ok (some l), db, cache.setEntry key l.original_url,
        [CacheOp.get key, CacheOp.set key l.original_url redis_ttl], 0⟩
  | none => ⟨.ok none, db, cache, [CacheOp.get key], 0⟩

/-- get_link_by_short_code (link_service.py lines 99-156).  The first action
is redis.get; with no handler installed, an unreachable backend makes the
whole call raise before any store access. -/
def get_link_by_short_code (db : DB) (cache : Cache) (short_code : String)
    (is_redirect : Bool) (now redis_ttl : Nat) : Outcome (Option Link) :=
  if cache.available then
    if cacheHit cache (cacheKey short_code) then
      getHitBranch db cache (cacheKey short_code) short_code is_redirect now
    else
      getMissBranch db cache (cacheKey short_code) short_code is_redirect now redis_ttl
  else
    ⟨.error Err.cacheUnavailable, db, cache, [CacheOp.get (cacheKey short_code)], 0⟩

/-- get_link_stats (link_service.py lines 159-162): a plain store query, no
cache, no mutation. -/
def get_link_stats (db : DB) (short_code : String) : Option Link :=
  findActiveByCode db short_code

/-- The while-loop of create_link (lines 46-54) that draws candidate codes
from the random source until one has no active collision.  The random source
is modelled as the stream of its successive outputs; fuel bounds the search in
the model (the Python loop is unbounded). -/
def pickFreeCode (db : DB) (gen : Nat → String) : Nat → Nat → Option String
  | 0, _ => none
  | fuel + 1, i =>
    match findActiveByCode db (gen i) with
    | some _ => pickFreeCode db gen fuel (i + 1)
    | none => some (gen i)

/-- Step 1 of create_link (lines 27-54): alias validation or code generation.
The Python guard if link_data.custom_alias is a truthiness test, so an empty
alias falls through to the generated-code path.  Returns none only when the
model runs out of fuel for the generation loop. -/
def resolveShortCode (db : DB) (d : LinkCreate) (gen : Nat → String)
    (fuel : Nat) : Option (Except Err String) :=
  match d.custom_alias with
  | some a =>
    if a == "" then (pickFreeCode db gen fuel 0).map Except.ok
    else if a.length < CUSTOM_ALIAS_MIN_LENGTH then
      some (.error (Err.http 400 "Custom alias must be at least 4 characters"))
    else
      match findActiveByAlias db a with
      | some _ => some (.error (Err.http 400 "Custom alias already exists"))
      | none => some (.ok a)
  | none => (pickFreeCode db gen fuel 0).map Except.ok

/-- Step of create_link (lines 71-81): a supplied expiration must be strictly
in the future, otherwise the default is now plus the inactivity window. -/
def resolveExpiry (d : LinkCreate) (now window : Nat) : Except Err Nat :=
  match d.expires_at with
  | some e =>
    if e ≤ now then .error (Err.http 400 "Expiration date must be in the future")
    else .ok e
  | none => .ok (now + window)

/-- create_link (link_service.py lines 24-96).  The store assigns nextId and
created_at at insert; the per-user dedup check runs after alias validation
and code generation, exactly as in the source.  The commit of the insert is
subject to the schema of models.py lines 48-52: the Index declared there
takes short_code as its NAME, so it is a unique index over the single column
is_active (partial over active rows on PostgreSQL, where the
postgresql_where clause applies; unconditional on SQLite), installed by
Base.metadata.create_all.  On either backend, committing a second active row
therefore raises IntegrityError; the service installs no handler, so the
raise propagates and the uncommitted session insert is discarded. -/
def create_link (db : DB) (d : LinkCreate) (user : Option User)
    (now window nextId : Nat) (gen : Nat → String) (fuel : Nat) :
    Option (StoreOutcome Link) :=
  match resolveShortCode db d gen fuel with
  | none => none
  | some (.error e) => some ⟨.error e, db, 0⟩
  | some (.ok code) =>
    match (match user with
           | some u => findActiveByUserAndUrl db u.id d.original_url
           | none => none) with
    | some existing => some ⟨.ok existing, db, 0⟩
    | none =>
      match resolveExpiry d now window with
      | .error e => some ⟨.error e, db, 0⟩
      | .ok exp =>
        let newLink : Link :=
          ⟨nextId, code, d.original_url, d.custom_alias, now, none, some exp,
            0, true, user.map User.id⟩
        if db.any (fun l => l.is_active) then some ⟨.error Err.integrityError, db, 0⟩
        else some ⟨.ok newLink, db ++ [newLink], 1⟩

/-- The ownership test of update_link and delete_link:
if db_link.user_id and db_link.user_id != user.id.  A user_id of 0 is falsy
in Python and skips the check, like a NULL one. -/
def ownershipBlocked (l : Link) (user : User) : Bool :=
  match l.user_id with
  | some uid => !(uid == 0) && !(uid == user.id)
  | none => false

/-- The alias part of update_link (lines 180-198): guarded by truthiness and
by inequality with the current alias; validates length and uniqueness among
active records, then moves both custom_alias and short_code to the new alias
and schedules the new cache key for invalidation. -/
def applyAlias (db : DB) (l : Link) (patch : LinkUpdate) :
    Except Err (Link × Option String) :=
  match patch.custom_alias with
  | some a =>
    if a == "" then .ok (l, none)
    else if some a == l.custom_alias then .ok (l, none)
    else if a.length < CUSTOM_ALIAS_MIN_LENGTH then
      .error (Err.http 400 "Custom alias must be at least 4 characters")
    else
      match findActiveByAlias db a with
      | some _ => .error (Err.http 400 "Custom alias already exists")
      | none => .ok ({ l with custom_alias := some a, short_code := a }, some (cacheKey a))
  | none => .ok (l, none)

/-- The original_url part of update_link (lines 201-203), a truthiness guard. -/
def applyUrl (l : Link) (patch : LinkUpdate) : Link :=
  match patch.original_url with
  | some u => if u == "" then l else { l with original_url := u }
  | none => l

/-- The expires_at part of update_link (lines 205-209): strictly-future check. -/
def applyExpiry (l : Link) (patch : LinkUpdate) (now : Nat) : Except Err Link :=
  match patch.expires_at with
  | some e =>
    if e ≤ now then .error (Err.http 400 "Expiration date must be in the future")
    else .ok { l with expires_at := some e }
  | none => .ok l

/-- update_link (link_service.py lines 165-224).  Commit happens before the
cache invalidations, so on an unreachable cache the store change persists and
the raised error propagates. -/
def update_link (db : DB) (cache : Cache) (short_code : String)
    (patch : LinkUpdate) (user : User) (now : Nat) : Outcome (Option Link) :=
  match findActiveByCode db short_code with
  | none => ⟨.ok none, db, cache, [], 0⟩
  | some l =>
    if ownershipBlocked l user then
      ⟨.error (Err.http 403 "Not authorized to update this link"), db, cache, [], 0⟩
    else
      match applyAlias db l patch with
      | .error e => ⟨.error e, db, cache, [], 0⟩
      | .ok (l1, newKey) =>
        match applyExpiry (applyUrl l1 patch) patch now with
        | .error e => ⟨.error e, db, cache, [], 0⟩
        | .ok l3 =>
          if cache.available then
            match newKey with
            | some nk =>
              ⟨.ok (some l3), saveLink db l3,
                (cache.delEntry (cacheKey l.short_code)).delEntry nk,
                [CacheOp.del (cacheKey l.short_code), CacheOp.del nk], 1⟩
            | none =>
              ⟨.ok (some l3), saveLink db l3, cache.delEntry (cacheKey l.short_code),
                [CacheOp.del (cacheKey l.short_code)], 1⟩
          else
            ⟨.error Err.cacheUnavailable, saveLink db l3, cache,
              [CacheOp.del (cacheKey l.short_code)], 1⟩

/-- delete_link (link_service.py lines 227-246): soft delete, commit, then
invalidate the cache key derived from the argument short_code. -/
def delete_link (db : DB) (cache : Cache) (short_code : String) (user : User) :
    Outcome Bool :=
  match findActiveByCode db short_code with
  | none => ⟨.ok false, db, cache, [], 0⟩
  | some l =>
    if ownershipBlocked l user then
      ⟨.error (Err.http 403 "Not authorized to delete this link"), db, cache, [], 0⟩
    else
      if cache.available then
        ⟨.ok true, saveLink db { l with is_active := false },
          cache.delEntry (cacheKey short_code), [CacheOp.del (cacheKey short_code)], 1⟩
      else
        ⟨.error Err.cacheUnavailable, saveLink db { l with is_active := false },
          cache, [CacheOp.del (cacheKey short_code)], 1⟩

/-- search_by_original_url (link_service.py lines 249-252). -/
def search_by_original_url (db : DB) (url : String) : List Link :=
  db.filter (fun l => l.original_url == url && l.is_active)

/-- The SQL filter Link.expires_at < now AND Link.is_active == True; a NULL
expires_at never satisfies the comparison. -/
def expiredActivePred (now : Nat) (l : Link) : Bool :=
  (match l.expires_at with
   | some e => decide (e < now)
   | none => false) && l.is_active

/-- The SQL filter Link.last_used_at < cutoff AND Link.is_active == True. -/
def staleActivePred (cutoff : Nat) (l : Link) : Bool :=
  (match l.last_used_at with
   | some t => decide (t < cutoff)
   | none => false) && l.is_active

/-- Deactivating in place every fetched row matching the filter. -/
def deactivateWhere (db : DB) (p : Link → Bool) : DB :=
  db.map (fun l => if p l then { l with is_active := false } else l)

/-- cleanup_expired_links in the service (link_service.py lines 255-272):
fetch the expired active rows, return 0 immediately when there are none,
otherwise deactivate each, delete its cache entry, and commit once.  The
first redis.delete of an unreachable backend raises before the commit. -/
def cleanup_expired_links (db : DB) (cache : Cache) (now : Nat) : Outcome Nat :=
  let expired := db.filter (expiredActivePred now)
  if expired.isEmpty then ⟨.ok 0, db, cache, [], 0⟩
  else if cache.available then
    ⟨.ok expired.length, deactivateWhere db (expiredActivePred now),
      expired.foldl (fun c l => c.delEntry (cacheKey l.short_code)) cache,
      expired.map (fun l => CacheOp.del (cacheKey l.short_code)), 1⟩
  else ⟨.error Err.cacheUnavailable, db, cache, [], 0⟩

/-- Result of the standalone cleanup script. -/
structure ScriptOutcome where
  expiredCount : Nat
  staleCount : Nat
  db : DB
  commits : Nat
  ops : List CacheOp
deriving Repr

/-- cleanup_expired_links in src/app/cleanup.py (lines 13-52): an expired
phase then a stale phase on the resulting state, each committing only when it
deactivated something.  The script imports no cache client and performs no
cache operation at all, hence ops is empty by construction. -/
def cleanup_script (db : DB) (now window : Nat) : ScriptOutcome :=
  let expired := db.filter (expiredActivePred now)
  let db1 := if expired.length > 0 then deactivateWhere db (expiredActivePred now) else db
  let c1 := if expired.length > 0 then 1 else 0
  let stale := db1.filter (staleActivePred (now - window))
  let db2 := if stale.length > 0 then deactivateWhere db1 (staleActivePred (now - window)) else db1
  let c2 := if stale.length > 0 then 1 else 0
  ⟨expired.length, stale.length, db2, c1 + c2, []⟩

/-- The short codes of the active records, whose pairwise distinctness is the
uniqueness invariant of the data model. -/
def activeCodes (db : DB) : List String :=
  (db.filter (fun l => l.is_active)).map (fun l => l.short_code)

/-! General lemmas about first-match queries and single-row commits. -/

lemma findActiveByCode_code_active {db : DB} {code : String} {l : Link}
    (h : findActiveByCode db code = some l) :
    l.short_code = code ∧ l.is_active = true := by
  have hp := List.find?_some h
  simp only [Bool.and_eq_true, beq_iff_eq] at hp
  exact hp

lemma find?_save_first (db : DB) (p : Link → Bool) (l l' : Link)
    (h : db.find? p = some l) (hid : l'.id = l.id)
    (hnd : (db.map Link.id).Nodup) (hp : p l' = true) :
    (saveLink db l').find? p = some l' := by
  induction db with
  | nil => simp at h
  | cons x xs ih =>
    rw [List.map_cons, List.nodup_cons] at hnd
    by_cases hx : p x = true
    · rw [List.find?_cons_of_pos _ hx] at h
      injection h with hxl
      subst hxl
      have hxid : x.id = l'.id := hid.symm
      show ((if x.id = l'.id then l' else x) :: saveLink xs l').find? p = some l'
      rw [if_pos hxid]
      exact List.find?_cons_of_pos _ hp
    · rw [List.find?_cons_of_neg _ hx] at h
      have hmem : l ∈ xs := List.mem_of_find?_eq_some h
      have hxid : ¬ x.id = l'.id := by
        intro hxe
        apply hnd.1
        rw [hxe, hid]
        exact List.mem_map_of_mem Link.id hmem
      show ((if x.id = l'.id then l' else x) :: saveLink xs l').find? p = some l'
      rw [if_neg hxid, List.find?_cons_of_neg _ hx]
      exact ih h hnd.2

lemma find?_save_none (db : DB) (p : Link → Bool) (l' : Link)
    (hall : ∀ x ∈ db, p x = true → x.id = l'.id) (hp : p l' = false) :
    (saveLink db l').find? p = none := by
  rw [List.find?_eq_none]
  intro y hy
  simp only [saveLink, List.mem_map] at hy
  obtain ⟨x, hx, rfl⟩ := hy
  by_cases hid : x.id = l'.id
  · rw [if_pos hid]
    simp [hp]
  · rw [if_neg hid]
    intro hpx
    exact hid (hall x hx hpx)

lemma find?_save_fresh (db : DB) (p q : Link → Bool) (l l' : Link)
    (h : db.find? p = some l) (hid : l'.id = l.id)
    (hnd : (db.map Link.id).Nodup) (hq : q l' = true)
    (hnone : ∀ x ∈ db, q x = false) :
    (saveLink db l').find? q = some l' := by
  induction db with
  | nil => simp at h
  | cons x xs ih =>
    rw [List.map_cons, List.nodup_cons] at hnd
    by_cases hxid : x.id = l'.id
    · show ((if x.id = l'.id then l' else x) :: saveLink xs l').find? q = some l'
      rw [if_pos hxid]
      exact List.find?_cons_of_pos _ hq
    · show ((if x.id = l'.id then l' else x) :: saveLink xs l').find? q = some l'
      rw [if_neg hxid]
      have hqx : ¬ q x = true := by
        rw [hnone x (List.mem_cons_self x xs)]
        simp
      rw [List.find?_cons_of_neg _ hqx]
      have hx : ¬ p x = true := by
        intro hpx
        rw [List.find?_cons_of_pos _ hpx] at h
        injection h with hxl
        exact hxid (hxl ▸ hid.symm)
      rw [List.find?_cons_of_neg _ hx] at h
      exact ih h hnd.2 (fun y hy => hnone y (List.mem_cons_of_mem x hy))

lemma get_result_none_of_no_active (db : DB) (cache : Cache) (code : String)
    (r : Bool) (now ttl : Nat) (hav : cache.available = true)
    (hfind : findActiveByCode db code = none) :
    (get_link_by_short_code db cache code r now ttl).result = .ok none := by
  unfold get_link_by_short_code
  rw [hav]
  by_cases hh : cacheHit cache (cacheKey code) = true
  · simp [hh, getHitBranch, hfind]
  · simp only [Bool.not_eq_true] at hh
    simp [hh, getMissBranch, hfind]

/-- C1: a read of a code whose active record has expires_at strictly in the
past returns not-found, flips the record to inactive in the committed store,
and afterwards every lookup of the same code returns not-found, no matter
what the cache held before either call. -/
theorem expired_read_deactivates_idempotently
    (db : DB) (cache : Cache) (code : String) (r : Bool) (now ttl : Nat)
    (l : Link) (e : Nat)
    (hav : cache.available = true)
    (hfind : findActiveByCode db code = some l)
    (hexp : l.expires_at = some e) (hlt : e < now)
    (huniq : ∀ x ∈ db, (x.short_code == code && x.is_active) = true → x.id = l.id) :
    (get_link_by_short_code db cache code r now ttl).result = .ok none ∧
    (get_link_by_short_code db cache code r now ttl).db
      = saveLink db { l with is_active := false } ∧
    (∀ (cache2 : Cache) (r2 : Bool) (now2 ttl2 : Nat), cache2.available = true →
      (get_link_by_short_code (get_link_by_short_code db cache code r now ttl).db
        cache2 code r2 now2 ttl2).result = .ok none) := by
  have hexpb : isExpiredAt l now = true := by simp [isExpiredAt, hexp, hlt]
  have hmain : (get_link_by_short_code db cache code r now ttl).result = .ok none ∧
      (get_link_by_short_code db cache code r now ttl).db
        = saveLink db { l with is_active := false } := by
    unfold get_link_by_short_code
    rw [hav]
    by_cases hh : cacheHit cache (cacheKey code) = true
    · simp [hh, getHitBranch, hfind, hexpb]
    · simp only [Bool.not_eq_true] at hh
      simp [hh, getMissBranch, hfind, hexpb]
  refine ⟨hmain.1, hmain.2, ?_⟩
  intro cache2 r2 now2 ttl2 hav2
  rw [hmain.2]
  apply get_result_none_of_no_active _ _ _ _ _ _ hav2
  show List.find? _ _ = none
  apply find?_save_none
  · intro x hx hpx
    exact huniq x hx hpx
  · simp

def linkC1 : Link :=
  ⟨1, "abcd", "https://example.com", none, 0, none, some 5, 3, true, some 1⟩

theorem expired_read_deactivates_idempotently_witness :
    (Cache.mk [("link:abcd", "https://example.com")] true).available = true ∧
    findActiveByCode [linkC1] "abcd" = some linkC1 ∧
    linkC1.expires_at = some 5 ∧ (5 < 10) ∧
    (∀ x ∈ [linkC1], (x.short_code == "abcd" && x.is_active) = true → x.id = linkC1.id) ∧
    ((get_link_by_short_code [linkC1]
        (Cache.mk [("link:abcd", "https://example.com")] true) "abcd" true 10 3600).result
      = .ok none ∧
     (get_link_by_short_code [linkC1]
        (Cache.mk [("link:abcd", "https://example.com")] true) "abcd" true 10 3600).db
      = saveLink [linkC1] { linkC1 with is_active := false } ∧
     (∀ (cache2 : Cache) (r2 : Bool) (now2 ttl2 : Nat), cache2.available = true →
      (get_link_by_short_code
        (get_link_by_short_code [linkC1]
          (Cache.mk [("link:abcd", "https://example.com")] true) "abcd" true 10 3600).db
        cache2 "abcd" r2 now2 ttl2).result = .ok none)) :=
  ⟨rfl, by decide, by decide, by decide, by decide,
    expired_read_deactivates_idempotently [linkC1]
      (Cache.mk [("link:abcd", "https://example.com")] true) "abcd" true 10 3600 linkC1 5
      rfl (by decide) (by decide) (by decide) (by decide)⟩

/-- C3 counterexample: with an unreachable cache backend and a store that
holds a valid active link, get_link_by_short_code raises the cache error
instead of degrading to the store-only result the available-cache run gives. -/
theorem cache_failure_fails_request :
    (get_link_by_short_code
        [⟨1, "abcd", "https://example.com", none, 0, none, some 100, 0, true, none⟩]
        (Cache.mk [] false) "abcd" true 10 3600).result
      = .error Err.cacheUnavailable ∧
    (get_link_by_short_code
        [⟨1, "abcd", "https://example.com", none, 0, none, some 100, 0, true, none⟩]
        (Cache.mk [] true) "abcd" true 10 3600).result
      = .ok (some ⟨1, "abcd", "https://example.com", none, 0, some 10, some 100, 1, true, none⟩) :=
  ⟨rfl, rfl⟩

/-- C3 amended: get_link_by_short_code installs no handler around the cache
calls, so an unreachable cache backend fails the whole request: the cache
error is propagated to the caller and the request aborts before any store
read or write. -/
theorem cache_failure_propagates (db : DB) (cache : Cache) (code : String)
    (r : Bool) (now ttl : Nat) (h : cache.available = false) :
    (get_link_by_short_code db cache code r now ttl).result = .error Err.cacheUnavailable ∧
    (get_link_by_short_code db cache code r now ttl).db = db ∧
    (get_link_by_short_code db cache code r now ttl).commits = 0 := by
  unfold get_link_by_short_code
  rw [h]
  simp

theorem cache_failure_propagates_witness :
    (Cache.mk [] false).available = false ∧
    ((get_link_by_short_code [] (Cache.mk [] false) "abcd" true 0 3600).result
        = .error Err.cacheUnavailable ∧
     (get_link_by_short_code [] (Cache.mk [] false) "abcd" true 0 3600).db = [] ∧
     (get_link_by_short_code [] (Cache.mk [] false) "abcd" true 0 3600).commits = 0) :=
  ⟨rfl, cache_failure_propagates [] (Cache.mk [] false) "abcd" true 0 3600 rfl⟩

/-- C2: the claim takes short_code uniqueness among active records as a
preserved invariant, which presumes a store that can hold several active
links with distinct codes, as the comment above the index in models.py also
documents.  The schema cannot hold such a store: its unique index covers
only the is_active column, so after one successful create every further
insert of an active row is rejected with IntegrityError at commit, although
the would-be combined store has pairwise distinct active codes (the
generated zzzzzz differs from the existing abcdef) and so satisfies the
claimed invariant; the custom-alias path fails the same way right after its
service-level check passed. -/
theorem second_active_insert_rejected_by_store :
    create_link [] ⟨"https://a.example", none, none⟩ none 5 30 1 (fun _ => "abcdef") 1
      = some ⟨.ok ⟨1, "abcdef", "https://a.example", none, 5, none, some 35, 0, true, none⟩,
          [⟨1, "abcdef", "https://a.example", none, 5, none, some 35, 0, true, none⟩], 1⟩ ∧
    (activeCodes
        [⟨1, "abcdef", "https://a.example", none, 5, none, some 35, 0, true, none⟩,
         ⟨2, "zzzzzz", "https://b.example", none, 10, none, some 40, 0, true, none⟩]).Nodup ∧
    create_link [⟨1, "abcdef", "https://a.example", none, 5, none, some 35, 0, true, none⟩]
        ⟨"https://b.example", none, none⟩ none 10 30 2 (fun _ => "zzzzzz") 1
      = some ⟨.error Err.integrityError,
          [⟨1, "abcdef", "https://a.example", none, 5, none, some 35, 0, true, none⟩], 0⟩ ∧
    create_link [⟨1, "abcdef", "https://a.example", none, 5, none, some 35, 0, true, none⟩]
        ⟨"https://b.example", some "wxyz", none⟩ none 10 30 2 (fun _ => "zzzzzz") 1
      = some ⟨.error Err.integrityError,
          [⟨1, "abcdef", "https://a.example", none, 5, none, some 35, 0, true, none⟩], 0⟩ :=
  ⟨rfl, by decide, rfl, rfl⟩

/-- Whether a service result is the Forbidden signal (HTTP 403). -/
def isForbidden {α : Type} (r : Except Err α) : Bool :=
  match r with
  | .error (Err.http s _) => s == 403
  | _ => false

lemma applyAlias_error_is_400 {db : DB} {l : Link} {patch : LinkUpdate} {e : Err}
    (h : applyAlias db l patch = .error e) : ∃ m, e = Err.http 400 m := by
  rcases hpa : patch.custom_alias with _ | a <;>
    simp only [applyAlias, hpa] at h
  · exact absurd h (by simp)
  · by_cases h1 : (a == "") = true
    · simp [h1] at h
    · simp only [h1, if_false, Bool.false_eq_true] at h
      by_cases h2 : (some a == l.custom_alias) = true
      · simp [h2] at h
      · simp only [h2, if_false, Bool.false_eq_true] at h
        by_cases h3 : a.length < CUSTOM_ALIAS_MIN_LENGTH
        · simp only [h3, if_true] at h
          injection h with he
          exact ⟨_, he.symm⟩
        · simp only [h3, if_false] at h
          rcases hfa : findActiveByAlias db a with _ | x <;> rw [hfa] at h
          · exact absurd h (by simp)
          · injection h with he
            exact ⟨_, he.symm⟩

lemma applyExpiry_error_is_400 {l : Link} {patch : LinkUpdate} {now : Nat} {e : Err}
    (h : applyExpiry l patch now = .error e) : ∃ m, e = Err.http 400 m := by
  rcases hpe : patch.expires_at with _ | t <;>
    simp only [applyExpiry, hpe] at h
  · exact absurd h (by simp)
  · by_cases h1 : t ≤ now
    · simp only [h1, if_true] at h
      injection h with he
      exact ⟨_, he.symm⟩
    · simp only [h1, if_false] at h
      exact absurd h (by simp)

lemma update_not_forbidden_of_not_blocked (db : DB) (cache : Cache) (code : String)
    (patch : LinkUpdate) (u : User) (now : Nat) (l : Link)
    (hfind : findActiveByCode db code = some l)
    (hb : ownershipBlocked l u = false) :
    isForbidden (update_link db cache code patch u now).result = false := by
  unfold update_link
  rw [hfind]
  simp only [hb, Bool.false_eq_true, if_false]
  split
  · next e ha =>
    obtain ⟨m, rfl⟩ := applyAlias_error_is_400 ha
    simp [isForbidden]
  · next l1 newKey ha =>
    split
    · next e he =>
      obtain ⟨m, rfl⟩ := applyExpiry_error_is_400 he
      simp [isForbidden]
    · next l3 he =>
      split
      · split <;> simp [isForbidden]
      · simp [isForbidden]

lemma delete_not_forbidden_of_not_blocked (db : DB) (cache : Cache) (code : String)
    (u : User) (l : Link)
    (hfind : findActiveByCode db code = some l)
    (hb : ownershipBlocked l u = false) :
    isForbidden (delete_link db cache code u).result = false := by
  unfold delete_link
  rw [hfind]
  simp only [hb, Bool.false_eq_true, if_false]
  by_cases hav : cache.available = true
  · simp [hav, isForbidden]
  · simp only [Bool.not_eq_true] at hav
    simp [hav, isForbidden]

/-- C8: on an active link owned by another user, update and delete fail with
the Forbidden error and leave store and cache untouched; when no active
record matches the code both operations signal plain not-found, a result
distinct from the Forbidden one. -/
theorem ownership_mismatch_forbidden
    (db : DB) (cache : Cache) (code : String) (patch : LinkUpdate) (u : User)
    (now : Nat) (l : Link) (uid : Nat)
    (hfind : findActiveByCode db code = some l)
    (huid : l.user_id = some uid) (hpos : 0 < uid) (hneq : uid ≠ u.id) :
    update_link db cache code patch u now
      = ⟨.error (Err.http 403 "Not authorized to update this link"), db, cache, [], 0⟩ ∧
    delete_link db cache code u
      = ⟨.error (Err.http 403 "Not authorized to delete this link"), db, cache, [], 0⟩ ∧
    (∀ (db2 : DB) (cache2 : Cache) (code2 : String),
      findActiveByCode db2 code2 = none →
        update_link db2 cache2 code2 patch u now = ⟨.ok none, db2, cache2, [], 0⟩ ∧
        delete_link db2 cache2 code2 u = ⟨.ok false, db2, cache2, [], 0⟩) ∧
    isForbidden (Except.ok (none : Option Link)) = false ∧
    isForbidden
      (Except.error (α := Option Link) (Err.http 403 "Not authorized to update this link")) = true := by
  have h0 : uid ≠ 0 := Nat.pos_iff_ne_zero.mp hpos
  have hb : ownershipBlocked l u = true := by
    simp [ownershipBlocked, huid, h0, hneq]
  refine ⟨?_, ?_, ?_, rfl, rfl⟩
  · unfold update_link
    rw [hfind]
    simp [hb]
  · unfold delete_link
    rw [hfind]
    simp [hb]
  · intro db2 cache2 code2 hnone
    constructor
    · unfold update_link
      rw [hnone]
    · unfold delete_link
      rw [hnone]

theorem ownership_mismatch_forbidden_witness :
    findActiveByCode [⟨1, "abcd", "https://example.com", none, 0, none, some 100, 0, true, some 2⟩]
        "abcd" = some ⟨1, "abcd", "https://example.com", none, 0, none, some 100, 0, true, some 2⟩ ∧
    (Link.user_id ⟨1, "abcd", "https://example.com", none, 0, none, some 100, 0, true, some 2⟩
        = some 2) ∧
    (0 < 2) ∧ (2 ≠ 1) ∧
    (update_link [⟨1, "abcd", "https://example.com", none, 0, none, some 100, 0, true, some 2⟩]
        (Cache.mk [] true) "abcd" ⟨none, none, none⟩ ⟨1, false⟩ 10
      = ⟨.error (Err.http 403 "Not authorized to update this link"),
          [⟨1, "abcd", "https://example.com", none, 0, none, some 100, 0, true, some 2⟩],
          Cache.mk [] true, [], 0⟩ ∧
     delete_link [⟨1, "abcd", "https://example.com", none, 0, none, some 100, 0, true, some 2⟩]
        (Cache.mk [] true) "abcd" ⟨1, false⟩
      = ⟨.error (Err.http 403 "Not authorized to delete this link"),
          [⟨1, "abcd", "https://example.com", none, 0, none, some 100, 0, true, some 2⟩],
          Cache.mk [] true, [], 0⟩ ∧
     (∀ (db2 : DB) (cache2 : Cache) (code2 : String),
       findActiveByCode db2 code2 = none →
         update_link db2 cache2 code2 ⟨none, none, none⟩ ⟨1, false⟩ 10
           = ⟨.ok none, db2, cache2, [], 0⟩ ∧
         delete_link db2 cache2 code2 ⟨1, false⟩ = ⟨.ok false, db2, cache2, [], 0⟩) ∧
     isForbidden (Except.ok (none : Option Link)) = false ∧
     isForbidden
       (Except.error (α := Option Link) (Err.http 403 "Not authorized to update this link")) = true) :=
  ⟨rfl, rfl, by decide, by decide,
    ownership_mismatch_forbidden
      [⟨1, "abcd", "https://example.com", none, 0, none, some 100, 0, true, some 2⟩]
      (Cache.mk [] true) "abcd" ⟨none, none, none⟩ ⟨1, false⟩ 10
      ⟨1, "abcd", "https://example.com", none, 0, none, some 100, 0, true, some 2⟩ 2
      rfl rfl (by decide) (by decide)⟩

/-- C10: update and delete raise Forbidden exactly when the record has an
owner different from the requesting user; on an anonymous record (user_id
NULL) the ownership check is skipped and, for delete, the operation goes
through for any authenticated user. -/
theorem forbidden_iff_owner_mismatch
    (db : DB) (cache : Cache) (code : String) (patch : LinkUpdate) (u : User)
    (now : Nat) (l : Link)
    (hfind : findActiveByCode db code = some l)
    (hpos : ∀ uid, l.user_id = some uid → 0 < uid) :
    (isForbidden (update_link db cache code patch u now).result = true
      ↔ ∃ uid, l.user_id = some uid ∧ uid ≠ u.id) ∧
    (isForbidden (delete_link db cache code u).result = true
      ↔ ∃ uid, l.user_id = some uid ∧ uid ≠ u.id) ∧
    (l.user_id = none → cache.available = true →
      (delete_link db cache code u).result = .ok true) := by
  have hbiff : ownershipBlocked l u = true ↔ ∃ uid, l.user_id = some uid ∧ uid ≠ u.id := by
    rcases hid : l.user_id with _ | uid
    · simp [ownershipBlocked, hid]
    · have h0 : uid ≠ 0 := Nat.pos_iff_ne_zero.mp (hpos uid hid)
      simp [ownershipBlocked, hid, h0]
  constructor
  · constructor
    · intro hf
      by_cases hb : ownershipBlocked l u = true
      · exact hbiff.mp hb
      · simp only [Bool.not_eq_true] at hb
        rw [update_not_forbidden_of_not_blocked db cache code patch u now l hfind hb] at hf
        exact absurd hf (by simp)
    · intro hx
      have hb : ownershipBlocked l u = true := hbiff.mpr hx
      unfold update_link
      rw [hfind]
      simp [hb, isForbidden]
  constructor
  · constructor
    · intro hf
      by_cases hb : ownershipBlocked l u = true
      · exact hbiff.mp hb
      · simp only [Bool.not_eq_true] at hb
        rw [delete_not_forbidden_of_not_blocked db cache code u l hfind hb] at hf
        exact absurd hf (by simp)
    · intro hx
      have hb : ownershipBlocked l u = true := hbiff.mpr hx
      unfold delete_link
      rw [hfind]
      simp [hb, isForbidden]
  · intro hid hav
    have hb : ownershipBlocked l u = false := by simp [ownershipBlocked, hid]
    unfold delete_link
    rw [hfind]
    simp [hb, hav]

theorem forbidden_iff_owner_mismatch_witness :
    findActiveByCode [⟨1, "abcd", "https://example.com", none, 0, none, some 100, 0, true, none⟩]
        "abcd" = some ⟨1, "abcd", "https://example.com", none, 0, none, some 100, 0, true, none⟩ ∧
    (∀ uid, Link.user_id ⟨1, "abcd", "https://example.com", none, 0, none, some 100, 0, true, none⟩
        = some uid → 0 < uid) ∧
    ((isForbidden (update_link
        [⟨1, "abcd", "https://example.com", none, 0, none, some 100, 0, true, none⟩]
        (Cache.mk [] true) "abcd" ⟨none, none, none⟩ ⟨7, false⟩ 10).result = true
      ↔ ∃ uid, Link.user_id ⟨1, "abcd", "https://example.com", none, 0, none, some 100, 0, true, none⟩
          = some uid ∧ uid ≠ (7 : Nat)) ∧
     (isForbidden (delete_link
        [⟨1, "abcd", "https://example.com", none, 0, none, some 100, 0, true, none⟩]
        (Cache.mk [] true) "abcd" ⟨7, false⟩).result = true
      ↔ ∃ uid, Link.user_id ⟨1, "abcd", "https://example.com", none, 0, none, some 100, 0, true, none⟩
          = some uid ∧ uid ≠ (7 : Nat)) ∧
     (Link.user_id ⟨1, "abcd", "https://example.com", none, 0, none, some 100, 0, true, none⟩ = none →
      (Cache.mk [] true).available = true →
      (delete_link [⟨1, "abcd", "https://example.com", none, 0, none, some 100, 0, true, none⟩]
        (Cache.mk [] true) "abcd" ⟨7, false⟩).result = .ok true)) :=
  ⟨rfl, by decide,
    forbidden_iff_owner_mismatch
      [⟨1, "abcd", "https://example.com", none, 0, none, some 100, 0, true, none⟩]
      (Cache.mk [] true) "abcd" ⟨none, none, none⟩ ⟨7, false⟩ 10
      ⟨1, "abcd", "https://example.com", none, 0, none, some 100, 0, true, none⟩
      rfl (by decide)⟩

lemma isExpiredAt_eq_of_expires_eq {a b : Link} (h : a.expires_at = b.expires_at)
    (n : Nat) : isExpiredAt a n = isExpiredAt b n := by
  unfold isExpiredAt
  rw [h]

/-- C4: on an active, non-expired link a redirect read increments clicks by
exactly one and stamps last_used_at on both the cache-hit and cache-miss
branches, so two successive redirect reads add exactly two; a hit never
writes the cache; an info read (is_redirect false) mutates nothing and
writes the cache only on a miss. -/
theorem redirect_read_click_accounting
    (db : DB) (cache : Cache) (code : String) (now ttl : Nat) (l : Link)
    (hav : cache.available = true)
    (hfind : findActiveByCode db code = some l)
    (hexp : isExpiredAt l now = false)
    (hnd : (db.map Link.id).Nodup) :
    (cacheHit cache (cacheKey code) = true →
      get_link_by_short_code db cache code true now ttl
        = ⟨.ok (some { l with clicks := l.clicks + 1, last_used_at := some now }),
            saveLink db { l with clicks := l.clicks + 1, last_used_at := some now },
            cache, [CacheOp.get (cacheKey code)], 1⟩) ∧
    (cacheHit cache (cacheKey code) = false →
      get_link_by_short_code db cache code true now ttl
        = ⟨.ok (some { l with clicks := l.clicks + 1, last_used_at := some now }),
            saveLink db { l with clicks := l.clicks + 1, last_used_at := some now },
            cache.setEntry (cacheKey code) l.original_url,
            [CacheOp.get (cacheKey code), CacheOp.set (cacheKey code) l.original_url ttl], 1⟩) ∧
    (cacheHit cache (cacheKey code) = true →
      get_link_by_short_code db cache code false now ttl
        = ⟨.ok (some l), db, cache, [CacheOp.get (cacheKey code)], 0⟩) ∧
    (cacheHit cache (cacheKey code) = false →
      get_link_by_short_code db cache code false now ttl
        = ⟨.ok (some l), db, cache.setEntry (cacheKey code) l.original_url,
            [CacheOp.get (cacheKey code), CacheOp.set (cacheKey code) l.original_url ttl], 0⟩) ∧
    (∀ (cache2 : Cache) (now2 ttl2 : Nat), cache2.available = true →
      isExpiredAt l now2 = false →
      (get_link_by_short_code (get_link_by_short_code db cache code true now ttl).db
          cache2 code true now2 ttl2).result
        = .ok (some { l with clicks := l.clicks + 1 + 1, last_used_at := some now2 })) := by
  obtain ⟨hcode, hact⟩ := findActiveByCode_code_active hfind
  have h1 : cacheHit cache (cacheKey code) = true →
      get_link_by_short_code db cache code true now ttl
        = ⟨.ok (some { l with clicks := l.clicks + 1, last_used_at := some now }),
            saveLink db { l with clicks := l.clicks + 1, last_used_at := some now },
            cache, [CacheOp.get (cacheKey code)], 1⟩ := by
    intro hh
    unfold get_link_by_short_code
    rw [hav]
    simp [hh, getHitBranch, hfind, hexp]
  have h2 : cacheHit cache (cacheKey code) = false →
      get_link_by_short_code db cache code true now ttl
        = ⟨.ok (some { l with clicks := l.clicks + 1, last_used_at := some now }),
            saveLink db { l with clicks := l.clicks + 1, last_used_at := some now },
            cache.setEntry (cacheKey code) l.original_url,
            [CacheOp.get (cacheKey code), CacheOp.set (cacheKey code) l.original_url ttl], 1⟩ := by
    intro hh
    unfold get_link_by_short_code
    rw [hav]
    simp [hh, getMissBranch, hfind, hexp]
  have h3 : cacheHit cache (cacheKey code) = true →
      get_link_by_short_code db cache code false now ttl
        = ⟨.ok (some l), db, cache, [CacheOp.get (cacheKey code)], 0⟩ := by
    intro hh
    unfold get_link_by_short_code
    rw [hav]
    simp [hh, getHitBranch, hfind, hexp]
  have h4 : cacheHit cache (cacheKey code) = false →
      get_link_by_short_code db cache code false now ttl
        = ⟨.ok (some l), db, cache.setEntry (cacheKey code) l.original_url,
            [CacheOp.get (cacheKey code), CacheOp.set (cacheKey code) l.original_url ttl], 0⟩ := by
    intro hh
    unfold get_link_by_short_code
    rw [hav]
    simp [hh, getMissBranch, hfind, hexp]
  refine ⟨h1, h2, h3, h4, ?_⟩
  intro cache2 now2 ttl2 hav2 hexp2
  have hdb1 : (get_link_by_short_code db cache code true now ttl).db
      = saveLink db { l with clicks := l.clicks + 1, last_used_at := some now } := by
    by_cases hh : cacheHit cache (cacheKey code) = true
    · rw [h1 hh]
    · rw [h2 (by simpa using hh)]
  have hfind1 : findActiveByCode
      (saveLink db { l with clicks := l.clicks + 1, last_used_at := some now }) code
      = some { l with clicks := l.clicks + 1, last_used_at := some now } := by
    apply find?_save_first db (fun x => x.short_code == code && x.is_active) l
      { l with clicks := l.clicks + 1, last_used_at := some now } hfind rfl hnd
    simp [hcode, hact]
  have hexp1 : isExpiredAt { l with clicks := l.clicks + 1, last_used_at := some now } now2
      = false := by
    rw [isExpiredAt_eq_of_expires_eq rfl now2]
    exact hexp2
  rw [hdb1]
  unfold get_link_by_short_code
  rw [hav2]
  by_cases hh2 : cacheHit cache2 (cacheKey code) = true
  · simp [hh2, getHitBranch, hfind1, hexp1]
  · simp only [Bool.not_eq_true] at hh2
    simp [hh2, getMissBranch, hfind1, hexp1]

def linkC4 : Link :=
  ⟨1, "abcd", "https://example.com", none, 0, none, some 100, 0, true, none⟩

def cacheC4 : Cache := Cache.mk [("link:abcd", "https://example.com")] true

theorem redirect_read_click_accounting_witness :
    cacheC4.available = true ∧
    findActiveByCode [linkC4] "abcd" = some linkC4 ∧
    isExpiredAt linkC4 10 = false ∧
    (([linkC4] : DB).map Link.id).Nodup ∧
    ((cacheHit cacheC4 (cacheKey "abcd") = true →
      get_link_by_short_code [linkC4] cacheC4 "abcd" true 10 3600
        = ⟨.ok (some { linkC4 with clicks := linkC4.clicks + 1, last_used_at := some 10 }),
            saveLink [linkC4] { linkC4 with clicks := linkC4.clicks + 1, last_used_at := some 10 },
            cacheC4, [CacheOp.get (cacheKey "abcd")], 1⟩) ∧
     (cacheHit cacheC4 (cacheKey "abcd") = false →
      get_link_by_short_code [linkC4] cacheC4 "abcd" true 10 3600
        = ⟨.ok (some { linkC4 with clicks := linkC4.clicks + 1, last_used_at := some 10 }),
            saveLink [linkC4] { linkC4 with clicks := linkC4.clicks + 1, last_used_at := some 10 },
            cacheC4.setEntry (cacheKey "abcd") linkC4.original_url,
            [CacheOp.get (cacheKey "abcd"),
              CacheOp.set (cacheKey "abcd") linkC4.original_url 3600], 1⟩) ∧
     (cacheHit cacheC4 (cacheKey "abcd") = true →
      get_link_by_short_code [linkC4] cacheC4 "abcd" false 10 3600
        = ⟨.ok (some linkC4), [linkC4], cacheC4, [CacheOp.get (cacheKey "abcd")], 0⟩) ∧
     (cacheHit cacheC4 (cacheKey "abcd") = false →
      get_link_by_short_code [linkC4] cacheC4 "abcd" false 10 3600
        = ⟨.ok (some linkC4), [linkC4], cacheC4.setEntry (cacheKey "abcd") linkC4.original_url,
            [CacheOp.get (cacheKey "abcd"),
              CacheOp.set (cacheKey "abcd") linkC4.original_url 3600], 0⟩) ∧
     (∀ (cache2 : Cache) (now2 ttl2 : Nat), cache2.available = true →
      isExpiredAt linkC4 now2 = false →
      (get_link_by_short_code (get_link_by_short_code [linkC4] cacheC4 "abcd" true 10 3600).db
          cache2 "abcd" true now2 ttl2).result
        = .ok (some { linkC4 with clicks := linkC4.clicks + 1 + 1, last_used_at := some now2 }))) :=
  ⟨rfl, rfl, by decide, by decide,
    redirect_read_click_accounting [linkC4] cacheC4 "abcd" 10 3600 linkC4
      rfl rfl (by decide) (by decide)⟩

/-- C7: updating the custom alias of an active link to a fresh valid alias
moves both custom_alias and short_code to the new alias, invalidates the
cache entries of both the old and the new code, and afterwards a lookup by
the old code returns not-found while a lookup by the new code returns the
same record (same id). -/
theorem update_alias_moves_lookup_key
    (db : DB) (cache : Cache) (oldCode newAlias : String) (u : User) (now : Nat)
    (l : Link)
    (hav : cache.available = true)
    (hfind : findActiveByCode db oldCode = some l)
    (hown : ownershipBlocked l u = false)
    (hne : newAlias ≠ "")
    (hcur : ¬ some newAlias = l.custom_alias)
    (hlen : ¬ newAlias.length < CUSTOM_ALIAS_MIN_LENGTH)
    (hfa : findActiveByAlias db newAlias = none)
    (hold : newAlias ≠ oldCode)
    (hfresh : ∀ x ∈ db, (x.short_code == newAlias && x.is_active) = false)
    (huniq : ∀ x ∈ db, (x.short_code == oldCode && x.is_active) = true → x.id = l.id)
    (hnd : (db.map Link.id).Nodup) :
    update_link db cache oldCode (LinkUpdate.mk none (some newAlias) none) u now
      = ⟨.ok (some { l with custom_alias := some newAlias, short_code := newAlias }),
          saveLink db { l with custom_alias := some newAlias, short_code := newAlias },
          (cache.delEntry (cacheKey oldCode)).delEntry (cacheKey newAlias),
          [CacheOp.del (cacheKey oldCode), CacheOp.del (cacheKey newAlias)], 1⟩ ∧
    ({ l with custom_alias := some newAlias, short_code := newAlias } : Link).short_code
      = newAlias ∧
    ({ l with custom_alias := some newAlias, short_code := newAlias } : Link).custom_alias
      = some newAlias ∧
    ({ l with custom_alias := some newAlias, short_code := newAlias } : Link).id = l.id ∧
    (∀ (cache2 : Cache) (r2 : Bool) (now2 ttl2 : Nat), cache2.available = true →
      (get_link_by_short_code
        (update_link db cache oldCode (LinkUpdate.mk none (some newAlias) none) u now).db
        cache2 oldCode r2 now2 ttl2).result = .ok none) ∧
    (∀ (cache2 : Cache) (now2 ttl2 : Nat), cache2.available = true →
      isExpiredAt l now2 = false →
      (get_link_by_short_code
        (update_link db cache oldCode (LinkUpdate.mk none (some newAlias) none) u now).db
        cache2 newAlias false now2 ttl2).result
        = .ok (some { l with custom_alias := some newAlias, short_code := newAlias })) := by
  obtain ⟨hcode, hact⟩ := findActiveByCode_code_active hfind
  have hAlias : applyAlias db l (LinkUpdate.mk none (some newAlias) none)
      = .ok ({ l with custom_alias := some newAlias, short_code := newAlias },
          some (cacheKey newAlias)) := by
    simp [applyAlias, hne, hcur, hlen, hfa]
  have hmain : update_link db cache oldCode (LinkUpdate.mk none (some newAlias) none) u now
      = ⟨.ok (some { l with custom_alias := some newAlias, short_code := newAlias }),
          saveLink db { l with custom_alias := some newAlias, short_code := newAlias },
          (cache.delEntry (cacheKey oldCode)).delEntry (cacheKey newAlias),
          [CacheOp.del (cacheKey oldCode), CacheOp.del (cacheKey newAlias)], 1⟩ := by
    unfold update_link
    rw [hfind]
    simp [hown, hAlias, applyUrl, applyExpiry, hav, hcode]
  refine ⟨hmain, rfl, rfl, rfl, ?_, ?_⟩
  · intro cache2 r2 now2 ttl2 hav2
    rw [hmain]
    apply get_result_none_of_no_active _ _ _ _ _ _ hav2
    show List.find? _ _ = none
    apply find?_save_none
    · intro x hx hpx
      exact huniq x hx hpx
    · simp [hold]
  · intro cache2 now2 ttl2 hav2 hexp2
    rw [hmain]
    have hfind3 : findActiveByCode
        (saveLink db { l with custom_alias := some newAlias, short_code := newAlias }) newAlias
        = some { l with custom_alias := some newAlias, short_code := newAlias } := by
      apply find?_save_fresh db (fun x => x.short_code == oldCode && x.is_active)
        (fun x => x.short_code == newAlias && x.is_active) l
        { l with custom_alias := some newAlias, short_code := newAlias } hfind rfl hnd
      · simp [hact]
      · exact hfresh
    have hexp3 : isExpiredAt
        { l with custom_alias := some newAlias, short_code := newAlias } now2 = false := by
      rw [isExpiredAt_eq_of_expires_eq rfl now2]
      exact hexp2
    unfold get_link_by_short_code
    rw [hav2]
    by_cases hh2 : cacheHit cache2 (cacheKey newAlias) = true
    · simp [hh2, getHitBranch, hfind3, hexp3]
    · simp only [Bool.not_eq_true] at hh2
      simp [hh2, getMissBranch, hfind3, hexp3]

def linkC7 : Link :=
  ⟨1, "old1", "https://example.com", some "old1", 0, none, some 100, 0, true, none⟩

def cacheC7 : Cache := Cache.mk [("link:old1", "https://example.com")] true

theorem update_alias_moves_lookup_key_witness :
    cacheC7.available = true ∧
    findActiveByCode [linkC7] "old1" = some linkC7 ∧
    ownershipBlocked linkC7 ⟨1, false⟩ = false ∧
    ("new1" ≠ "") ∧
    (¬ some "new1" = linkC7.custom_alias) ∧
    (¬ ("new1" : String).length < CUSTOM_ALIAS_MIN_LENGTH) ∧
    findActiveByAlias [linkC7] "new1" = none ∧
    ("new1" ≠ "old1") ∧
    (∀ x ∈ [linkC7], (x.short_code == "new1" && x.is_active) = false) ∧
    (∀ x ∈ [linkC7], (x.short_code == "old1" && x.is_active) = true → x.id = linkC7.id) ∧
    (([linkC7] : DB).map Link.id).Nodup ∧
    (update_link [linkC7] cacheC7 "old1" (LinkUpdate.mk none (some "new1") none) ⟨1, false⟩ 10
      = ⟨.ok (some { linkC7 with custom_alias := some "new1", short_code := "new1" }),
          saveLink [linkC7] { linkC7 with custom_alias := some "new1", short_code := "new1" },
          (cacheC7.delEntry (cacheKey "old1")).delEntry (cacheKey "new1"),
          [CacheOp.del (cacheKey "old1"), CacheOp.del (cacheKey "new1")], 1⟩ ∧
     ({ linkC7 with custom_alias := some "new1", short_code := "new1" } : Link).short_code
       = "new1" ∧
     ({ linkC7 with custom_alias := some "new1", short_code := "new1" } : Link).custom_alias
       = some "new1" ∧
     ({ linkC7 with custom_alias := some "new1", short_code := "new1" } : Link).id = linkC7.id ∧
     (∀ (cache2 : Cache) (r2 : Bool) (now2 ttl2 : Nat), cache2.available = true →
       (get_link_by_short_code
         (update_link [linkC7] cacheC7 "old1" (LinkUpdate.mk none (some "new1") none)
           ⟨1, false⟩ 10).db
         cache2 "old1" r2 now2 ttl2).result = .ok none) ∧
     (∀ (cache2 : Cache) (now2 ttl2 : Nat), cache2.available = true →
       isExpiredAt linkC7 now2 = false →
       (get_link_by_short_code
         (update_link [linkC7] cacheC7 "old1" (LinkUpdate.mk none (some "new1") none)
           ⟨1, false⟩ 10).db
         cache2 "new1" false now2 ttl2).result
         = .ok (some { linkC7 with custom_alias := some "new1", short_code := "new1" }))) :=
  ⟨rfl, rfl, rfl, by decide, by decide, by decide, rfl, by decide, by decide, by decide, by decide,
    update_alias_moves_lookup_key [linkC7] cacheC7 "old1" "new1" ⟨1, false⟩ 10 linkC7
      rfl rfl rfl (by decide) (by decide) (by decide) rfl (by decide) (by decide) (by decide)
      (by decide)⟩

def linkC6 : Link :=
  ⟨1, "abcd", "https://example.com", some "abcd", 0, none, some 100, 0, true, some 1⟩

/-- C6 counterexample: a user who already holds an active link for the url,
created with custom alias abcd, repeats the identical create call; the alias
uniqueness check runs before the per-user dedup lookup, so the call raises
alias-already-exists instead of returning the existing record. -/
theorem duplicate_create_with_same_alias_errors :
    findActiveByUserAndUrl [linkC6] 1 "https://example.com" = some linkC6 ∧
    create_link [linkC6] ⟨"https://example.com", some "abcd", none⟩ (some ⟨1, false⟩)
        10 30 2 (fun _ => "zzzzzz") 1
      = some ⟨.error (Err.http 400 "Custom alias already exists"), [linkC6], 0⟩ :=
  ⟨rfl, rfl⟩

/-- C6 amended: create is idempotent per user and url only for requests that
first pass alias resolution (no custom alias, or a fresh valid one): then the
existing active record is returned unchanged, nothing is inserted and no
error is raised.  A request repeating the already-taken custom alias is
instead rejected before the dedup lookup runs. -/
theorem create_dedup_returns_existing
    (db : DB) (d : LinkCreate) (u : User) (now window nextId : Nat)
    (gen : Nat → String) (fuel : Nat) (l0 : Link) (code : String)
    (hcode : resolveShortCode db d gen fuel = some (.ok code))
    (hdup : findActiveByUserAndUrl db u.id d.original_url = some l0) :
    create_link db d (some u) now window nextId gen fuel = some ⟨.ok l0, db, 0⟩ := by
  unfold create_link
  rw [hcode]
  simp [hdup]

def linkC6w : Link :=
  ⟨1, "abcd", "https://example.com", none, 0, none, some 100, 0, true, some 1⟩

theorem create_dedup_returns_existing_witness :
    resolveShortCode [linkC6w] ⟨"https://example.com", none, none⟩ (fun _ => "newcod") 1
      = some (.ok "newcod") ∧
    findActiveByUserAndUrl [linkC6w] 1 "https://example.com" = some linkC6w ∧
    create_link [linkC6w] ⟨"https://example.com", none, none⟩ (some ⟨1, false⟩)
        10 30 2 (fun _ => "newcod") 1
      = some ⟨.ok linkC6w, [linkC6w], 0⟩ :=
  ⟨rfl, rfl,
    create_dedup_returns_existing [linkC6w] ⟨"https://example.com", none, none⟩ ⟨1, false⟩
      10 30 2 (fun _ => "newcod") 1 linkC6w "newcod" rfl rfl⟩

/-- C9 counterexample: an empty custom alias has length 0, below the minimum
of 4, yet create_link succeeds: the guard if link_data.custom_alias is a
truthiness test, so the empty string skips alias validation entirely and a
code is generated instead. -/
theorem empty_alias_skips_validation :
    ("" : String).length < CUSTOM_ALIAS_MIN_LENGTH ∧
    create_link [] ⟨"https://example.com", some "", none⟩ none 10 30 1 (fun _ => "GeN123") 1
      = some ⟨.ok ⟨1, "GeN123", "https://example.com", some "", 10, none, some 40, 0, true, none⟩,
          [⟨1, "GeN123", "https://example.com", some "", 10, none, some 40, 0, true, none⟩], 1⟩ :=
  ⟨by decide, rfl⟩

/-- C9 amended: for a nonempty custom alias, create_link rejects a length
below 4 with the alias-too-short error and rejects an alias equal to an
active custom_alias with the alias-exists error; with a valid unused alias
(here with no user and no supplied expiry) the insert commits a link whose
short_code is the alias when the store holds no active row, and otherwise
raises IntegrityError at commit, since the unique index of models.py covers
the is_active column; an empty alias is treated as absent and goes through
code generation. -/
theorem create_alias_validation
    (db : DB) (d : LinkCreate) (user : Option User) (now window nextId : Nat)
    (gen : Nat → String) (fuel : Nat) (a : String)
    (ha : d.custom_alias = some a) (hne : a ≠ "") :
    (a.length < CUSTOM_ALIAS_MIN_LENGTH →
      create_link db d user now window nextId gen fuel
        = some ⟨.error (Err.http 400 "Custom alias must be at least 4 characters"), db, 0⟩) ∧
    (¬ a.length < CUSTOM_ALIAS_MIN_LENGTH →
      ∀ x, findActiveByAlias db a = some x →
        create_link db d user now window nextId gen fuel
          = some ⟨.error (Err.http 400 "Custom alias already exists"), db, 0⟩) ∧
    (¬ a.length < CUSTOM_ALIAS_MIN_LENGTH → findActiveByAlias db a = none →
      user = none → d.expires_at = none → db.any (fun l => l.is_active) = false →
      create_link db d user now window nextId gen fuel
        = some ⟨.ok ⟨nextId, a, d.original_url, some a, now, none, some (now + window), 0, true, none⟩,
            db ++ [⟨nextId, a, d.original_url, some a, now, none, some (now + window), 0, true, none⟩],
            1⟩) ∧
    (¬ a.length < CUSTOM_ALIAS_MIN_LENGTH → findActiveByAlias db a = none →
      user = none → d.expires_at = none → db.any (fun l => l.is_active) = true →
      create_link db d user now window nextId gen fuel
        = some ⟨.error Err.integrityError, db, 0⟩) := by
  refine ⟨?_, ?_, ?_, ?_⟩
  · intro hlt
    simp [create_link, resolveShortCode, ha, hne, hlt]
  · intro hge x hx
    simp [create_link, resolveShortCode, ha, hne, hge, hx]
  · intro hge hnone hu hexp hnoact
    subst hu
    simp [create_link, resolveShortCode, resolveExpiry, ha, hne, hge, hnone, hexp, hnoact]
  · intro hge hnone hu hexp hact
    subst hu
    simp [create_link, resolveShortCode, resolveExpiry, ha, hne, hge, hnone, hexp, hact]

theorem create_alias_validation_witness :
    ("ab" : String).length < CUSTOM_ALIAS_MIN_LENGTH ∧
    create_link [] ⟨"https://example.com", some "ab", none⟩ none 10 30 1 (fun _ => "zzzzzz") 1
      = some ⟨.error (Err.http 400 "Custom alias must be at least 4 characters"), [], 0⟩ ∧
    (¬ ("abcd" : String).length < CUSTOM_ALIAS_MIN_LENGTH) ∧
    findActiveByAlias
        [⟨1, "abcd", "https://a.example", some "abcd", 0, none, some 100, 0, true, none⟩] "abcd"
      = some ⟨1, "abcd", "https://a.example", some "abcd", 0, none, some 100, 0, true, none⟩ ∧
    create_link [⟨1, "abcd", "https://a.example", some "abcd", 0, none, some 100, 0, true, none⟩]
        ⟨"https://b.example", some "abcd", none⟩ none 10 30 2 (fun _ => "zzzzzz") 1
      = some ⟨.error (Err.http 400 "Custom alias already exists"),
          [⟨1, "abcd", "https://a.example", some "abcd", 0, none, some 100, 0, true, none⟩], 0⟩ ∧
    findActiveByAlias [] "wxyz" = none ∧
    ([] : DB).any (fun l => l.is_active) = false ∧
    create_link [] ⟨"https://example.com", some "wxyz", none⟩ none 10 30 1 (fun _ => "zzzzzz") 1
      = some ⟨.ok ⟨1, "wxyz", "https://example.com", some "wxyz", 10, none, some 40, 0, true, none⟩,
          [⟨1, "wxyz", "https://example.com", some "wxyz", 10, none, some 40, 0, true, none⟩], 1⟩ ∧
    findActiveByAlias
        [⟨1, "qrst", "https://a.example", none, 0, none, some 100, 0, true, none⟩] "wxyz" = none ∧
    ([⟨1, "qrst", "https://a.example", none, 0, none, some 100, 0, true, none⟩] : DB).any
        (fun l => l.is_active) = true ∧
    create_link [⟨1, "qrst", "https://a.example", none, 0, none, some 100, 0, true, none⟩]
        ⟨"https://b.example", some "wxyz", none⟩ none 10 30 2 (fun _ => "zzzzzz") 1
      = some ⟨.error Err.integrityError,
          [⟨1, "qrst", "https://a.example", none, 0, none, some 100, 0, true, none⟩], 0⟩ :=
  ⟨by decide,
   (create_alias_validation [] ⟨"https://example.com", some "ab", none⟩ none 10 30 1
      (fun _ => "zzzzzz") 1 "ab" rfl (by decide)).1 (by decide),
   by decide, rfl,
   (create_alias_validation
      [⟨1, "abcd", "https://a.example", some "abcd", 0, none, some 100, 0, true, none⟩]
      ⟨"https://b.example", some "abcd", none⟩ none 10 30 2 (fun _ => "zzzzzz") 1 "abcd" rfl
      (by decide)).2.1 (by decide) _ rfl,
   rfl, rfl,
   (create_alias_validation [] ⟨"https://example.com", some "wxyz", none⟩ none 10 30 1
      (fun _ => "zzzzzz") 1 "wxyz" rfl (by decide)).2.2.1 (by decide) rfl rfl rfl rfl,
   rfl, rfl,
   (create_alias_validation
      [⟨1, "qrst", "https://a.example", none, 0, none, some 100, 0, true, none⟩]
      ⟨"https://b.example", some "wxyz", none⟩ none 10 30 2 (fun _ => "zzzzzz") 1 "wxyz" rfl
      (by decide)).2.2.2 (by decide) rfl rfl rfl rfl⟩

lemma all_false_of_filter_nil {p : Link → Bool} {db : DB}
    (h : db.filter p = []) : ∀ x ∈ db, p x = false := by
  intro x hx
  cases hval : p x
  · rfl
  · have hmem : x ∈ db.filter p := List.mem_filter.mpr ⟨hx, hval⟩
    rw [h] at hmem
    simp at hmem

/-- C5 counterexample: the standalone cleanup script deactivates a stale
active link (staleCount 1, record flipped inactive, one commit) while
performing no cache operation at all, whereas the service expired sweep does
delete the cache entry of each link it deactivates. -/
theorem stale_sweep_skips_cache_invalidation :
    cleanup_script [⟨1, "abcd", "https://example.com", none, 0, some 0, none, 5, true, none⟩] 100 10
      = ⟨0, 1, [⟨1, "abcd", "https://example.com", none, 0, some 0, none, 5, false, none⟩], 1, []⟩ ∧
    (cleanup_expired_links
        [⟨2, "wxyz", "https://example.com", none, 0, none, some 5, 0, true, none⟩]
        (Cache.mk [] true) 100).ops
      = [CacheOp.del (cacheKey "wxyz")] :=
  ⟨rfl, rfl⟩

/-- C5 amended: the service sweep deactivates exactly the active records with
expires_at before now, deletes the cache entry of each of them, returns the
count, and does nothing (no commit, no cache call) when there is no
candidate; the standalone stale sweep deactivates exactly the active records
with last_used_at before the cutoff and commits only when it deactivated
something, but it performs no cache invalidation whatsoever. -/
theorem sweep_behavior
    (db : DB) (cache : Cache) (now window : Nat)
    (hav : cache.available = true) :
    ((cleanup_expired_links db cache now).result
        = .ok (db.filter (expiredActivePred now)).length ∧
     (∀ i : Nat, (cleanup_expired_links db cache now).db.get? i
        = (db.get? i).map (fun l =>
            if expiredActivePred now l then { l with is_active := false } else l)) ∧
     (∀ l ∈ db, expiredActivePred now l = true →
        CacheOp.del (cacheKey l.short_code) ∈ (cleanup_expired_links db cache now).ops) ∧
     (db.filter (expiredActivePred now) = [] →
        cleanup_expired_links db cache now = ⟨.ok 0, db, cache, [], 0⟩)) ∧
    (db.filter (expiredActivePred now) = [] →
      ((cleanup_script db now window).staleCount
          = (db.filter (staleActivePred (now - window))).length ∧
       (∀ i : Nat, (cleanup_script db now window).db.get? i
          = (db.get? i).map (fun l =>
              if staleActivePred (now - window) l then { l with is_active := false } else l)) ∧
       (db.filter (staleActivePred (now - window)) = [] →
          (cleanup_script db now window).db = db ∧
          (cleanup_script db now window).commits = 0) ∧
       (cleanup_script db now window).ops = [])) := by
  constructor
  · by_cases hemp : db.filter (expiredActivePred now) = []
    · have hempb : (db.filter (expiredActivePred now)).isEmpty = true := by
        rw [hemp]
        rfl
      have hrun : cleanup_expired_links db cache now = ⟨.ok 0, db, cache, [], 0⟩ := by
        simp [cleanup_expired_links, hempb]
      have hall := all_false_of_filter_nil hemp
      refine ⟨?_, ?_, ?_, fun _ => hrun⟩
      · rw [hrun, hemp]
        rfl
      · intro i
        rw [hrun]
        rcases hg : db.get? i with _ | l
        · simp
        · have hl : l ∈ db := List.get?_mem hg
          simp [hall l hl]
      · intro l hl hp
        rw [hall l hl] at hp
        exact absurd hp (by simp)
    · have hempb : (db.filter (expiredActivePred now)).isEmpty = false := by
        rcases hc : db.filter (expiredActivePred now) with _ | ⟨y, ys⟩
        · exact absurd hc hemp
        · rfl
      have hrun : cleanup_expired_links db cache now
          = ⟨.ok (db.filter (expiredActivePred now)).length,
              deactivateWhere db (expiredActivePred now),
              (db.filter (expiredActivePred now)).foldl
                (fun c l => c.delEntry (cacheKey l.short_code)) cache,
              (db.filter (expiredActivePred now)).map
                (fun l => CacheOp.del (cacheKey l.short_code)), 1⟩ := by
        simp [cleanup_expired_links, hempb, hav]
      refine ⟨by rw [hrun], ?_, ?_, fun h => absurd h hemp⟩
      · intro i
        rw [hrun]
        simp [deactivateWhere, List.get?_map]
      · intro l hl hp
        rw [hrun]
        simp only [List.mem_map]
        exact ⟨l, List.mem_filter.mpr ⟨hl, hp⟩, rfl⟩
  · intro hexp0
    by_cases hst : db.filter (staleActivePred (now - window)) = []
    · have h1 : cleanup_script db now window = ⟨0, 0, db, 0, []⟩ := by
        simp [cleanup_script, hexp0, hst]
      have hall := all_false_of_filter_nil hst
      refine ⟨?_, ?_, fun _ => ⟨by rw [h1], by rw [h1]⟩, by rw [h1]⟩
      · rw [h1, hst]
        rfl
      · intro i
        rw [h1]
        rcases hg : db.get? i with _ | l
        · simp
        · have hl : l ∈ db := List.get?_mem hg
          simp [hall l hl]
    · have hpos : 0 < (db.filter (staleActivePred (now - window))).length :=
        List.length_pos.mpr hst
      have h1 : cleanup_script db now window
          = ⟨0, (db.filter (staleActivePred (now - window))).length,
              deactivateWhere db (staleActivePred (now - window)), 1, []⟩ := by
        simp [cleanup_script, hexp0, hpos]
      refine ⟨by rw [h1], ?_, fun h => absurd h hst, by rw [h1]⟩
      intro i
      rw [h1]
      simp [deactivateWhere, List.get?_map]

def dbC5a : DB :=
  [⟨1, "aaaa", "https://one.example", none, 0, none, some 5, 0, true, none⟩,
   ⟨2, "bbbb", "https://two.example", none, 0, none, some 7, 0, true, none⟩,
   ⟨3, "cccc", "https://three.example", none, 0, none, some 500, 0, true, none⟩]

def dbC5b : DB :=
  [⟨1, "abcd", "https://example.com", none, 0, some 0, none, 5, true, none⟩]

def cacheC5 : Cache := Cache.mk [] true

theorem sweep_behavior_witness :
    cacheC5.available = true ∧
    (dbC5a.filter (expiredActivePred 100)).length = 2 ∧
    (((cleanup_expired_links dbC5a cacheC5 100).result
        = .ok (dbC5a.filter (expiredActivePred 100)).length ∧
      (∀ i : Nat, (cleanup_expired_links dbC5a cacheC5 100).db.get? i
         = (dbC5a.get? i).map (fun l =>
             if expiredActivePred 100 l then { l with is_active := false } else l)) ∧
      (∀ l ∈ dbC5a, expiredActivePred 100 l = true →
         CacheOp.del (cacheKey l.short_code) ∈ (cleanup_expired_links dbC5a cacheC5 100).ops) ∧
      (dbC5a.filter (expiredActivePred 100) = [] →
         cleanup_expired_links dbC5a cacheC5 100 = ⟨.ok 0, dbC5a, cacheC5, [], 0⟩)) ∧
     (dbC5a.filter (expiredActivePred 100) = [] →
       ((cleanup_script dbC5a 100 10).staleCount
           = (dbC5a.filter (staleActivePred (100 - 10))).length ∧
        (∀ i : Nat, (cleanup_script dbC5a 100 10).db.get? i
           = (dbC5a.get? i).map (fun l =>
               if staleActivePred (100 - 10) l then { l with is_active := false } else l)) ∧
        (dbC5a.filter (staleActivePred (100 - 10)) = [] →
           (cleanup_script dbC5a 100 10).db = dbC5a ∧
           (cleanup_script dbC5a 100 10).commits = 0) ∧
        (cleanup_script dbC5a 100 10).ops = []))) ∧
    dbC5b.filter (expiredActivePred 100) = [] ∧
    ((cleanup_script dbC5b 100 10).staleCount
        = (dbC5b.filter (staleActivePred (100 - 10))).length ∧
     (∀ i : Nat, (cleanup_script dbC5b 100 10).db.get? i
        = (dbC5b.get? i).map (fun l =>
            if staleActivePred (100 - 10) l then { l with is_active := false } else l)) ∧
     (dbC5b.filter (staleActivePred (100 - 10)) = [] →
        (cleanup_script dbC5b 100 10).db = dbC5b ∧
        (cleanup_script dbC5b 100 10).commits = 0) ∧
     (cleanup_script dbC5b 100 10).ops = []) :=
  ⟨rfl, rfl, sweep_behavior dbC5a cacheC5 100 10 rfl, rfl,
    (sweep_behavior dbC5b cacheC5 100 10 rfl).2 rfl⟩
